import Mathlib

/-!
Shallow embedding of `app.py` (a WhatsApp automation bot with an HTTP
control surface).  The browser driver, the DOM and the Gemini provider are
modelled as explicit environments; state mutation becomes explicit state
passing; the observable interactions (browser launch/quit, clicks, key
sends, sleeps, provider calls) are recorded in an event trace.
-/

/-- Observable interactions performed by the bot (browser, provider, timing). -/
inductive Ev where
  | setRunning (b : Bool)
  | launchBrowser (id : Nat)
  | displayQR
  | spawnThread
  | quitDriver (id : Nat)
  | clickChat
  | sleepSec (n : Nat)
  | geminiCall (prompt : String)
  | clickInput
  | sendKeys (s : String)
deriving DecidableEq, Repr

/-- The mutable fields of the `WhatsAppBot` instance (`__init__`):
`self.driver` (an opaque handle, modelled as a `Nat` id), `self.is_authenticated`
and `self.running`. -/
structure BotState where
  driver : Option Nat
  is_authenticated : Bool
  running : Bool
deriving DecidableEq, Repr

/-- The state built by `WhatsAppBot.__init__`: no driver, not authenticated,
not running. -/
def initialBot : BotState := ⟨none, false, false⟩

/-- Environment of one `wait_for_login` call: whether the QR canvas appears
within the 30-unit wait, and whether the chat list (successful login)
appears within the 120-unit wait. -/
structure LoginEnv where
  qrAppears : Bool
  loginCompletes : Bool
deriving DecidableEq, Repr

/-- Python's `a in b` substring test, prefix check at one position. -/
def pyStartsWith : List Char → List Char → Bool
  | [], _ => true
  | _ :: _, [] => false
  | a :: as, b :: bs => a == b && pyStartsWith as bs

/-- Python's `a in b` substring test over char lists: some suffix of the
haystack starts with the needle. -/
def pyInAux (n : List Char) : List Char → Bool
  | [] => pyStartsWith n []
  | h :: hs => pyStartsWith n (h :: hs) || pyInAux n hs

/-- Python's `needle in haystack` on strings (substring containment), as used
by `if "message-in" in last_message.get_attribute("class")`. -/
def pyIn (needle haystack : String) : Bool :=
  pyInAux needle.toList haystack.toList

/-- One message element matched by the selector
`div[class*='message-in'], div[class*='message-out']`: its `.text` and its
`class` attribute. -/
structure Msg where
  text : String
  classAttr : String
deriving DecidableEq, Repr

/-- One unread conversation as the DOM presents it to an iteration:
whether `chat.click()` succeeds (else it raises), what the message query
returns (or that it raises), and whether the input-box lookup succeeds. -/
structure Conv where
  clickOk : Bool
  messages : Except Unit (List Msg)
  inputBox : Except Unit Unit
deriving Repr

namespace WhatsAppBot

/-- `initialize_driver`: launches a fresh Chrome driver, stores the handle in
`self.driver` (overwriting whatever was there) and navigates to WhatsApp Web.
It never quits a previously stored driver. -/
def initialize_driver (s : BotState) (freshId : Nat) : BotState × List Ev :=
  ({ s with driver := some freshId }, [Ev.launchBrowser freshId])

/-- `wait_for_login`: waits for the QR canvas (30 units); if it appears,
shows the QR and waits for the chat list (120 units).  Success sets
`is_authenticated` and returns `true`; any timeout/exception is caught and
returns `false` without touching the state. -/
def wait_for_login (s : BotState) (env : LoginEnv) : BotState × Bool × List Ev :=
  if env.qrAppears then
    if env.loginCompletes then
      ({ s with is_authenticated := true }, true, [Ev.displayQR])
    else
      (s, false, [Ev.displayQR])
  else
    (s, false, [])

/-- `get_gemini_response`: calls the provider; on success returns its text,
on any exception logs it and returns the hard-coded fallback string. -/
def get_gemini_response (g : String → Except Unit String) (message : String) : String :=
  match g message with
  | Except.ok t => t
  | Except.error _ =>
      "I'm having trouble connecting to the AI service. Please try again later."

/-- The body of the `for chat in unread_chats` loop for one conversation:
click it, sleep 2, query the messages, and if the last one carries
`message-in` in its class, call Gemini and type+send the reply.  Returns the
events performed and whether an exception was raised partway through. -/
def processChat (g : String → Except Unit String) (c : Conv) : List Ev × Bool :=
  if c.clickOk then
    let evs0 := [Ev.clickChat, Ev.sleepSec 2]
    match c.messages with
    | Except.error _ => (evs0, true)
    | Except.ok msgs =>
      match msgs.getLast? with
      | none => (evs0, false)
      | some last =>
        if pyIn "message-in" last.classAttr then
          let ai := get_gemini_response g last.text
          let evs1 := evs0 ++ [Ev.geminiCall last.text]
          match c.inputBox with
          | Except.error _ => (evs1, true)
          | Except.ok _ =>
              (evs1 ++ [Ev.clickInput, Ev.sendKeys ai, Ev.sendKeys "\n"], false)
        else
          (evs0, false)
  else
    ([], true)

/-- Sequential processing of the unread conversations of one iteration; a
raise in one conversation aborts the rest of the `for` loop (the exception
propagates to the iteration's `except`). -/
def processChats (g : String → Except Unit String) : List Conv → List Ev × Bool
  | [] => ([], false)
  | c :: cs =>
    let r := processChat g c
    if r.2 then
      (r.1, true)
    else
      let r2 := processChats g cs
      (r.1 ++ r2.1, r2.2)

end WhatsAppBot

/-- Environment of one poll iteration: what the unread-conversation query
returns (or that it raises), and the Gemini provider's behaviour. -/
structure IterEnv where
  unread : Except Unit (List Conv)
  gemini : String → Except Unit String

namespace WhatsAppBot

/-- One iteration of the `while self.running` body: the whole `try` block.
If anything inside raises, the `except` arm sleeps 10; otherwise the
iteration ends with the regular 5-unit sleep. -/
def runIteration (env : IterEnv) : List Ev :=
  match env.unread with
  | Except.error _ => [Ev.sleepSec 10]
  | Except.ok chats =>
    let r := processChats env.gemini chats
    if r.2 then r.1 ++ [Ev.sleepSec 10] else r.1 ++ [Ev.sleepSec 5]

/-- Whether an exception is raised somewhere inside the iteration's `try`
block for the given environment. -/
def iterRaises (env : IterEnv) : Bool :=
  match env.unread with
  | Except.error _ => true
  | Except.ok chats => (processChats env.gemini chats).2

/-- `process_messages`: the poll loop.  `running` gives the value of
`self.running` as observed at the top of each iteration (it is mutated
externally by `stop`); the schedule lists the environment of each potential
iteration.  Returns the full event trace and the iteration index at which the
loop stopped consuming the schedule. -/
def process_messages (running : Nat → Bool) : Nat → List IterEnv → List Ev × Nat
  | i, [] => (([] : List Ev), i)
  | i, e :: rest =>
    if running i then
      let r := process_messages running (i + 1) rest
      (runIteration e ++ r.1, r.2)
    else
      (([] : List Ev), i)

/-- `start`: sets `self.running = True`, launches the driver, runs the login
handshake; on success spawns the poll thread and returns `True`, otherwise
returns `False` (leaving `running` and the driver untouched). -/
def start (s : BotState) (freshId : Nat) (env : LoginEnv) : BotState × Bool × List Ev :=
  let s1 := { s with running := true }
  let r1 := initialize_driver s1 freshId
  let r2 := wait_for_login r1.1 env
  if r2.2.1 then
    (r2.1, true, Ev.setRunning true :: r1.2 ++ r2.2.2 ++ [Ev.spawnThread])
  else
    (r2.1, false, Ev.setRunning true :: r1.2 ++ r2.2.2)

/-- `stop`: sets `self.running = False` and, if a driver handle is stored,
quits it.  The handle itself is left in `self.driver`. -/
def stop (s : BotState) : BotState × List Ev :=
  ({ s with running := false },
   match s.driver with
   | some d => [Ev.quitDriver d]
   | none => [])

end WhatsAppBot

/-- A `{status: ..., message: ...}` JSON response of the control surface. -/
structure StatusResp where
  status : String
  message : String
deriving DecidableEq, Repr

/-- The `{status: "healthy", bot_running: ...}` JSON response of `/health`. -/
structure HealthResp where
  status : String
  bot_running : Bool
deriving DecidableEq, Repr

/-- The `POST /start` handler: runs `bot.start()` and maps its boolean to the
success/error JSON response. -/
def start_bot (s : BotState) (freshId : Nat) (env : LoginEnv) :
    BotState × StatusResp × List Ev :=
  let r := WhatsAppBot.start s freshId env
  if r.2.1 then
    (r.1, ⟨"success", "Bot started successfully"⟩, r.2.2)
  else
    (r.1, ⟨"error", "Failed to start bot"⟩, r.2.2)

/-- The `POST /stop` handler: runs `bot.stop()` and always answers success. -/
def stop_bot (s : BotState) : BotState × StatusResp × List Ev :=
  let r := WhatsAppBot.stop s
  (r.1, ⟨"success", "Bot stopped successfully"⟩, r.2)

/-- The `GET /health` handler: reads `bot.running`, mutates nothing. -/
def health_check (s : BotState) : BotState × HealthResp :=
  (s, ⟨"healthy", s.running⟩)

/-! ## Claims -/

/-- Claim C8: for every session state, `GET /health` returns the current value
of the `running` flag (with status `"healthy"`) and mutates no part of the
session state. -/
theorem C8_health_reads_without_mutation (s : BotState) :
    (health_check s).1 = s ∧ (health_check s).2 = ⟨"healthy", s.running⟩ :=
  ⟨rfl, rfl⟩

/-- Claim C5: for every session state with `running = false`, `stop` leaves the
session state unchanged and `POST /stop` returns the success response. -/
theorem C5_stop_idempotent_when_not_running (s : BotState) (h : s.running = false) :
    (WhatsAppBot.stop s).1 = s ∧ (stop_bot s).1 = s ∧
    (stop_bot s).2.1 = ⟨"success", "Bot stopped successfully"⟩ := by
  obtain ⟨d, a, r⟩ := s
  cases h
  exact ⟨rfl, rfl, rfl⟩

/-- Witness for C5 at the initial session state. -/
theorem C5_witness :
    initialBot.running = false ∧
    ((WhatsAppBot.stop initialBot).1 = initialBot ∧ (stop_bot initialBot).1 = initialBot ∧
      (stop_bot initialBot).2.1 = ⟨"success", "Bot stopped successfully"⟩) :=
  ⟨rfl, C5_stop_idempotent_when_not_running initialBot rfl⟩

/-- Claim C2 as stated is false: on provider error the returned fallback string
is not `"service unavailable, try again"`. -/
theorem C2_counterexample :
    WhatsAppBot.get_gemini_response (fun _ => Except.error ()) "Hello"
      ≠ "service unavailable, try again" := by
  decide

/-- Claim C2 (amended): if the provider call errors, `get_gemini_response`
returns the fixed fallback string `"I'm having trouble connecting to the AI
service. Please try again later."` and never propagates the error (it is a
total, string-valued function). -/
theorem C2_fallback_on_provider_error (g : String → Except Unit String)
    (prompt : String) (h : g prompt = Except.error ()) :
    WhatsAppBot.get_gemini_response g prompt
      = "I'm having trouble connecting to the AI service. Please try again later." := by
  unfold WhatsAppBot.get_gemini_response
  rw [h]

/-- Witness for C2 (amended) at a concrete always-erroring provider. -/
theorem C2_witness :
    (fun _ : String => (Except.error () : Except Unit String)) "Hello" = Except.error () ∧
    WhatsAppBot.get_gemini_response (fun _ => Except.error ()) "Hello"
      = "I'm having trouble connecting to the AI service. Please try again later." :=
  ⟨rfl, C2_fallback_on_provider_error (fun _ => Except.error ()) "Hello" rfl⟩

/-- Claim C4 as stated is false: `stop` does not reset the driver handle to the
absent value — after stopping a session whose handle is set, the handle is
still set. -/
theorem C4_counterexample :
    ((WhatsAppBot.stop ⟨some 0, true, true⟩).1).driver ≠ none := by
  decide

/-- Claim C4 (amended): the driver handle is populated by `start`; `stop` quits
the browser process when a handle is present but leaves the handle stored
(it never resets it to the absent value). -/
theorem C4_driver_populated_not_cleared (s t : BotState) (freshId d : Nat)
    (env : LoginEnv) (h : t.driver = some d) :
    ((WhatsAppBot.start s freshId env).1).driver = some freshId ∧
    ((WhatsAppBot.stop t).1).driver = t.driver ∧
    Ev.quitDriver d ∈ (WhatsAppBot.stop t).2 := by
  obtain ⟨qa, lc⟩ := env
  refine ⟨?_, rfl, ?_⟩
  · cases qa <;> cases lc <;> rfl
  · simp only [WhatsAppBot.stop, h]
    exact List.mem_singleton.mpr rfl

/-- Witness for C4 (amended) at concrete states. -/
theorem C4_witness :
    (⟨some 3, false, false⟩ : BotState).driver = some 3 ∧
    (((WhatsAppBot.start initialBot 7 ⟨true, true⟩).1).driver = some 7 ∧
      ((WhatsAppBot.stop ⟨some 3, false, false⟩).1).driver
        = (⟨some 3, false, false⟩ : BotState).driver ∧
      Ev.quitDriver 3 ∈ (WhatsAppBot.stop ⟨some 3, false, false⟩).2) :=
  ⟨rfl, C4_driver_populated_not_cleared initialBot ⟨some 3, false, false⟩ 7 3 ⟨true, true⟩ rfl⟩

/-- Claim C1 fails on the code: with a handshake in which the login challenge
never appears, `POST /start` does return
`{status: "error", message: "Failed to start bot"}`, but the session's
`running` flag is `true` afterwards, not `false` — `start` sets it before the
handshake and never resets it on failure. -/
theorem C1_failed_start_leaves_running_true :
    (start_bot initialBot 0 ⟨false, false⟩).2.1 = ⟨"error", "Failed to start bot"⟩ ∧
    ((start_bot initialBot 0 ⟨false, false⟩).1).running = true :=
  ⟨rfl, rfl⟩

/-- Claim C9: `start` records `running = true` before launching the driver and
before the handshake begins; when the handshake fails it returns `false`
without resetting `running`, so a later health query reports
`bot_running = true` even though the poll thread was never spawned. -/
theorem C9_running_true_despite_failed_start (s : BotState) (freshId : Nat)
    (env : LoginEnv) (h : env.qrAppears = false ∨ env.loginCompletes = false) :
    (WhatsAppBot.start s freshId env).2.1 = false ∧
    ((WhatsAppBot.start s freshId env).2.2).take 2
      = [Ev.setRunning true, Ev.launchBrowser freshId] ∧
    ((WhatsAppBot.start s freshId env).1).running = true ∧
    (health_check (WhatsAppBot.start s freshId env).1).2.bot_running = true ∧
    Ev.spawnThread ∉ (WhatsAppBot.start s freshId env).2.2 := by
  obtain ⟨qa, lc⟩ := env
  cases qa <;> cases lc <;>
    simp_all [WhatsAppBot.start, WhatsAppBot.initialize_driver,
      WhatsAppBot.wait_for_login, health_check]

/-- Witness for C9 with a handshake whose QR never appears. -/
theorem C9_witness :
    ((⟨false, false⟩ : LoginEnv).qrAppears = false ∨
      (⟨false, false⟩ : LoginEnv).loginCompletes = false) ∧
    ((WhatsAppBot.start initialBot 0 ⟨false, false⟩).2.1 = false ∧
      ((WhatsAppBot.start initialBot 0 ⟨false, false⟩).2.2).take 2
        = [Ev.setRunning true, Ev.launchBrowser 0] ∧
      ((WhatsAppBot.start initialBot 0 ⟨false, false⟩).1).running = true ∧
      (health_check (WhatsAppBot.start initialBot 0 ⟨false, false⟩).1).2.bot_running = true ∧
      Ev.spawnThread ∉ (WhatsAppBot.start initialBot 0 ⟨false, false⟩).2.2) :=
  ⟨Or.inl rfl, C9_running_true_despite_failed_start initialBot 0 ⟨false, false⟩ (Or.inl rfl)⟩

/-- Claim C10: calling `start` on a session whose driver handle is already set
stores a freshly launched handle in its place, launches a new browser, and
never quits the previous one in that call. -/
theorem C10_start_overwrites_driver_without_quit (s : BotState) (old freshId : Nat)
    (env : LoginEnv) (h : s.driver = some old) :
    ((WhatsAppBot.start s freshId env).1).driver = some freshId ∧
    (∀ d, Ev.quitDriver d ∉ (WhatsAppBot.start s freshId env).2.2) ∧
    Ev.launchBrowser freshId ∈ (WhatsAppBot.start s freshId env).2.2 := by
  obtain ⟨qa, lc⟩ := env
  cases qa <;> cases lc <;>
    refine ⟨rfl, fun d => ?_, ?_⟩ <;>
      simp [WhatsAppBot.start, WhatsAppBot.initialize_driver, WhatsAppBot.wait_for_login]

/-- Witness for C10 at a session that already holds driver handle 0. -/
theorem C10_witness :
    (⟨some 0, true, true⟩ : BotState).driver = some 0 ∧
    (((WhatsAppBot.start ⟨some 0, true, true⟩ 1 ⟨true, true⟩).1).driver = some 1 ∧
      (∀ d, Ev.quitDriver d ∉ (WhatsAppBot.start ⟨some 0, true, true⟩ 1 ⟨true, true⟩).2.2) ∧
      Ev.launchBrowser 1 ∈ (WhatsAppBot.start ⟨some 0, true, true⟩ 1 ⟨true, true⟩).2.2) :=
  ⟨rfl, C10_start_overwrites_driver_without_quit ⟨some 0, true, true⟩ 0 1 ⟨true, true⟩ rfl⟩

/-- Claim C6: if the last message of an unread conversation is marked outgoing
(its class carries `message-out` and not `message-in`), processing that
conversation performs no completion call and no send interaction. -/
theorem C6_outgoing_message_no_reply (g : String → Except Unit String) (c : Conv)
    (msgs : List Msg) (last : Msg)
    (hm : c.messages = Except.ok msgs) (hl : msgs.getLast? = some last)
    (hout : pyIn "message-out" last.classAttr = true)
    (hin : pyIn "message-in" last.classAttr = false) :
    (∀ p, Ev.geminiCall p ∉ (WhatsAppBot.processChat g c).1) ∧
    (∀ t, Ev.sendKeys t ∉ (WhatsAppBot.processChat g c).1) ∧
    Ev.clickInput ∉ (WhatsAppBot.processChat g c).1 := by
  cases hc : c.clickOk
  · simp [WhatsAppBot.processChat, hc]
  · simp [WhatsAppBot.processChat, hc, hm, hl, hin]

/-- Witness for C6 at a conversation whose last message is outgoing. -/
theorem C6_witness :
    (⟨true, Except.ok [⟨"yo", "message-out"⟩], Except.ok ()⟩ : Conv).messages
        = Except.ok [⟨"yo", "message-out"⟩] ∧
    ([(⟨"yo", "message-out"⟩ : Msg)].getLast? = some ⟨"yo", "message-out"⟩) ∧
    pyIn "message-out" "message-out" = true ∧
    pyIn "message-in" "message-out" = false ∧
    ((∀ p, Ev.geminiCall p ∉
        (WhatsAppBot.processChat (fun _ => Except.error ())
          ⟨true, Except.ok [⟨"yo", "message-out"⟩], Except.ok ()⟩).1) ∧
      (∀ t, Ev.sendKeys t ∉
        (WhatsAppBot.processChat (fun _ => Except.error ())
          ⟨true, Except.ok [⟨"yo", "message-out"⟩], Except.ok ()⟩).1) ∧
      Ev.clickInput ∉
        (WhatsAppBot.processChat (fun _ => Except.error ())
          ⟨true, Except.ok [⟨"yo", "message-out"⟩], Except.ok ()⟩).1) :=
  ⟨rfl, rfl, by decide, by decide,
    C6_outgoing_message_no_reply (fun _ => Except.error ())
      ⟨true, Except.ok [⟨"yo", "message-out"⟩], Except.ok ()⟩
      [⟨"yo", "message-out"⟩] ⟨"yo", "message-out"⟩ rfl rfl (by decide) (by decide)⟩

/-- Claim C7: if the last message of an unread conversation is marked incoming
with text "Hello", the completion client is called with prompt "Hello" and, on
provider success, its text is clicked into the input box, typed, and followed
by an Enter keystroke. -/
theorem C7_incoming_hello_replied (g : String → Except Unit String) (c : Conv)
    (msgs : List Msg) (last : Msg) (resp : String)
    (hc : c.clickOk = true)
    (hm : c.messages = Except.ok msgs) (hl : msgs.getLast? = some last)
    (htext : last.text = "Hello")
    (hin : pyIn "message-in" last.classAttr = true)
    (hbox : c.inputBox = Except.ok ())
    (hg : g "Hello" = Except.ok resp) :
    (WhatsAppBot.processChat g c).1
      = [Ev.clickChat, Ev.sleepSec 2, Ev.geminiCall "Hello",
         Ev.clickInput, Ev.sendKeys resp, Ev.sendKeys "\n"] := by
  simp [WhatsAppBot.processChat, hc, hm, hl, htext, hin, hbox,
    WhatsAppBot.get_gemini_response, hg]

/-- Witness for C7 at a conversation whose last message is "Hello" incoming. -/
theorem C7_witness :
    (⟨true, Except.ok [⟨"Hello", "message-in"⟩], Except.ok ()⟩ : Conv).clickOk = true ∧
    (⟨true, Except.ok [⟨"Hello", "message-in"⟩], Except.ok ()⟩ : Conv).messages
        = Except.ok [⟨"Hello", "message-in"⟩] ∧
    ([(⟨"Hello", "message-in"⟩ : Msg)].getLast? = some ⟨"Hello", "message-in"⟩) ∧
    (⟨"Hello", "message-in"⟩ : Msg).text = "Hello" ∧
    pyIn "message-in" "message-in" = true ∧
    (⟨true, Except.ok [⟨"Hello", "message-in"⟩], Except.ok ()⟩ : Conv).inputBox
        = Except.ok () ∧
    (fun _ : String => (Except.ok "Hi there" : Except Unit String)) "Hello"
        = Except.ok "Hi there" ∧
    (WhatsAppBot.processChat (fun _ => Except.ok "Hi there")
        ⟨true, Except.ok [⟨"Hello", "message-in"⟩], Except.ok ()⟩).1
      = [Ev.clickChat, Ev.sleepSec 2, Ev.geminiCall "Hello",
         Ev.clickInput, Ev.sendKeys "Hi there", Ev.sendKeys "\n"] :=
  ⟨rfl, rfl, rfl, rfl, by decide, rfl, rfl,
    C7_incoming_hello_replied (fun _ => Except.ok "Hi there")
      ⟨true, Except.ok [⟨"Hello", "message-in"⟩], Except.ok ()⟩
      [⟨"Hello", "message-in"⟩] ⟨"Hello", "message-in"⟩ "Hi there"
      rfl rfl rfl rfl (by decide) rfl rfl⟩

/-- The last event of a trace ending in a sleep is that sleep. -/
theorem trace_getLast_append (l : List Ev) (a : Ev) : (l ++ [a]).getLast? = some a := by
  rw [List.getLast?_append_cons]
  rfl

/-- Claim C3: an iteration that raises ends with the 10-unit recovery sleep;
when `running` is true at the top of an iteration the loop performs the whole
iteration and resumes with the next one, whatever happened inside; and the
loop stops consuming its schedule early only at an index where `running`
is false. -/
theorem C3_loop_recovers_and_exits_only_on_stop (running : Nat → Bool)
    (i j : Nat) (env : IterEnv) (rest envs : List IterEnv)
    (hrun : running i = true) :
    (WhatsAppBot.iterRaises env = true →
      (WhatsAppBot.runIteration env).getLast? = some (Ev.sleepSec 10)) ∧
    (WhatsAppBot.process_messages running i (env :: rest)
      = (WhatsAppBot.runIteration env
           ++ (WhatsAppBot.process_messages running (i + 1) rest).1,
         (WhatsAppBot.process_messages running (i + 1) rest).2)) ∧
    ((WhatsAppBot.process_messages running j envs).2 < j + envs.length →
      running ((WhatsAppBot.process_messages running j envs).2) = false) := by
  refine ⟨?_, ?_, ?_⟩
  · intro hr
    unfold WhatsAppBot.runIteration
    cases henv : env.unread with
    | error e => rfl
    | ok chats =>
      have hr2 : (WhatsAppBot.processChats env.gemini chats).2 = true := by
        unfold WhatsAppBot.iterRaises at hr
        rw [henv] at hr
        exact hr
      simp [hr2, trace_getLast_append]
  · simp [WhatsAppBot.process_messages, hrun]
  · induction envs generalizing j with
    | nil =>
      intro hlt
      simp [WhatsAppBot.process_messages] at hlt
    | cons e es ih =>
      intro hlt
      cases hj : running j with
      | false =>
        simpa [WhatsAppBot.process_messages, hj] using hj
      | true =>
        simp only [WhatsAppBot.process_messages, hj, if_true] at hlt ⊢
        exact ih (j + 1) (by simpa [Nat.add_assoc, Nat.add_comm, Nat.add_left_comm,
          List.length_cons] using hlt)

/-- Witness for C3: a schedule of two raising iterations with `running` turned
off from index 1 on — the raising iteration ends in the recovery sleep, the
loop resumes after it, and it stops exactly where `running` is false. -/
theorem C3_witness :
    ((fun j : Nat => decide (j = 0)) 0 = true) ∧
    ((WhatsAppBot.iterRaises ⟨Except.error (), fun _ => Except.error ()⟩ = true →
        (WhatsAppBot.runIteration ⟨Except.error (), fun _ => Except.error ()⟩).getLast?
          = some (Ev.sleepSec 10)) ∧
      (WhatsAppBot.process_messages (fun j => decide (j = 0)) 0
          (⟨Except.error (), fun _ => Except.error ()⟩
            :: [⟨Except.error (), fun _ => Except.error ()⟩])
        = (WhatsAppBot.runIteration ⟨Except.error (), fun _ => Except.error ()⟩
             ++ (WhatsAppBot.process_messages (fun j => decide (j = 0)) (0 + 1)
                   [⟨Except.error (), fun _ => Except.error ()⟩]).1,
           (WhatsAppBot.process_messages (fun j => decide (j = 0)) (0 + 1)
               [⟨Except.error (), fun _ => Except.error ()⟩]).2)) ∧
      ((WhatsAppBot.process_messages (fun j => decide (j = 0)) 0
            [⟨Except.error (), fun _ => Except.error ()⟩,
             ⟨Except.error (), fun _ => Except.error ()⟩]).2
          < 0 + ([⟨Except.error (), fun _ => Except.error ()⟩,
                  ⟨Except.error (), fun _ => Except.error ()⟩] : List IterEnv).length →
        (fun j => decide (j = 0))
            ((WhatsAppBot.process_messages (fun j => decide (j = 0)) 0
                [⟨Except.error (), fun _ => Except.error ()⟩,
                 ⟨Except.error (), fun _ => Except.error ()⟩]).2)
          = false)) :=
  ⟨rfl, C3_loop_recovers_and_exits_only_on_stop (fun j => decide (j = 0)) 0 0
      ⟨Except.error (), fun _ => Except.error ()⟩
      [⟨Except.error (), fun _ => Except.error ()⟩]
      [⟨Except.error (), fun _ => Except.error ()⟩,
       ⟨Except.error (), fun _ => Except.error ()⟩]
      rfl⟩
